import Mathlib

/-!
Verification of the secure-server bootstrap and hidden-service lifecycle
logic of `src/cryptoadvance/specter/cli/cli_server.py` (the `server`
command's `run` closure and the `configure_ssl` function), via a shallow
embedding in Lean.

Modelling conventions:
- Python dictionaries holding paths and contents (the filesystem, the
  `app.config` mapping, the `kwargs` dict) become Lean structures and an
  association list `FS` mapping a path to its file contents.
- Python exceptions become the inductive `PyExc`; the two constructors
  distinguish `SpecterError` (the repository's own exception class) from
  every other `Exception` subclass, since one `except` clause in the source
  names `SpecterError` specifically.
- Calls to external collaborators (`start_hidden_service`, `app.run`,
  `tor_controller.close`) are modelled by their observable outcome, given
  as fields of `RunEnv`: `none` means the call returned normally, `some e`
  means it raised `e`. The sequence of calls the `run` closure performs is
  recorded as a list of `Event`s.
-/

namespace CliServer

/-- A Python exception value: either the repository's `SpecterError` or any
other subclass of `Exception`. -/
inductive PyExc where
  | specterError (msg : String)
  | genericError (msg : String)
deriving DecidableEq, Repr

/-- The filesystem, as an association list from path to file contents.
Earlier entries shadow later ones, so writing is consing. -/
abbrev FS := List (String × String)

/-- The subset of the Flask `app.config` mapping read and written by
`configure_ssl`: the `CERT`, `KEY` and `SPECTER_DATA_FOLDER` entries.
`none` models the Python value `None`. -/
structure AppConfig where
  cert : Option String
  key : Option String
  specterDataFolder : String
deriving DecidableEq, Repr

/-- The `kwargs` dict assembled by `server` and passed to `app.run`:
`host`, `port`, and the optional `ssl_context` pair added by
`configure_ssl`. -/
structure Kwargs where
  host : String
  port : Nat
  sslContext : Option (String × String)
deriving DecidableEq, Repr

/-- Result of a `configure_ssl` call: the returned `kwargs`, the
`app.config` after the call (the Python function mutates the dict in
place), the filesystem after the call, and the list of file writes the
call performed, in order. -/
structure SslResult where
  kwargs : Kwargs
  appConfig : AppConfig
  fs : FS
  writes : List (String × String)
deriving DecidableEq, Repr

/-- The cert path `configure_ssl` resolves: `app_config["CERT"]` if set,
else `app_config["SPECTER_DATA_FOLDER"] + "/cert.pem"`. -/
def AppConfig.resolvedCert (cfg : AppConfig) : String :=
  cfg.cert.getD (cfg.specterDataFolder ++ "/cert.pem")

/-- The key path `configure_ssl` resolves: `app_config["KEY"]` if set,
else `app_config["SPECTER_DATA_FOLDER"] + "/key.pem"`. -/
def AppConfig.resolvedKey (cfg : AppConfig) : String :=
  cfg.key.getD (cfg.specterDataFolder ++ "/key.pem")

/-- Shallow embedding of `configure_ssl(kwargs, app_config, ssl)`.

Mirrors the source line by line:
- `if not ssl and app_config["CERT"] is None: return kwargs` — early
  plaintext return, nothing touched;
- otherwise `CERT` and `KEY` are defaulted in place when `None`;
- `if not os.path.exists(app_config["CERT"])` — the cert file alone is
  probed; when absent, a key pair and self-signed certificate are
  generated and both PEM files are written (the generated PEM texts are
  the parameters `genCert`/`genKey`, standing for the output of the
  OpenSSL calls);
- finally `kwargs["ssl_context"] = (CERT, KEY)`. -/
def configure_ssl (kwargs : Kwargs) (cfg : AppConfig) (ssl : Bool)
    (fs : FS) (genCert genKey : String) : SslResult :=
  if ssl = false ∧ cfg.cert = none then
    ⟨kwargs, cfg, fs, []⟩
  else
    let certPath := cfg.resolvedCert
    let keyPath := cfg.resolvedKey
    let cfg2 : AppConfig := ⟨some certPath, some keyPath, cfg.specterDataFolder⟩
    if (fs.lookup certPath).isSome then
      ⟨⟨kwargs.host, kwargs.port, some (certPath, keyPath)⟩, cfg2, fs, []⟩
    else
      ⟨⟨kwargs.host, kwargs.port, some (certPath, keyPath)⟩, cfg2,
        (keyPath, genKey) :: (certPath, genCert) :: fs,
        [(certPath, genCert), (keyPath, genKey)]⟩

/-- The observable calls the `run` closure makes, in program order. -/
inductive Event where
  | warnTorDebug
  | startHiddenService
  | toggleTorStatus
  | appRun
  | stopHiddenServices
  | torControllerClose
deriving DecidableEq, Repr

/-- The ambient state and external-call outcomes a single execution of the
`run` closure sees: the `--tor` CLI flag, whether `os.getenv("CONNECT_TOR")`
equals `"True"`, the persisted `app.specter.config["tor_status"]` setting,
whether `kwargs` carries an `ssl_context`, the outcomes of
`start_hidden_service`, `app.run` and `tor_controller.close` (`none` =
returns normally, `some e` = raises `e`), the service id a successful
`start_hidden_service` records, and whether `app.specter.tor_controller`
is non-`None` at teardown. -/
structure RunEnv where
  tor : Bool
  connectTorEnvTrue : Bool
  torStatus : Bool
  sslContextPresent : Bool
  startErr : Option PyExc
  serviceId : String
  appRunErr : Option PyExc
  torControllerPresent : Bool
  closeErr : Option PyExc
deriving DecidableEq, Repr

/-- What the `run` closure leaves behind: the calls it made in order, the
`app.tor_port` it chose, the `debug` value it passed to `app.run`, the
final `app.tor_enabled` / `app.tor_service_id`, the persisted `tor_status`
after the run, and the exception propagating out of `run` (`none` if it
returns normally). -/
structure RunResult where
  events : List Event
  torPort : Nat
  debugUsed : Bool
  torEnabled : Bool
  torServiceId : Option String
  torStatusAfter : Bool
  err : Option PyExc
deriving DecidableEq, Repr

/-- Outcome of the Tor-registration block inside the `run` closure. -/
structure TorBranchOut where
  events : List Event
  torEnabled : Bool
  torServiceId : Option String
  torStatusAfter : Bool
deriving DecidableEq, Repr

/-- Python `try/finally` semantics for the propagating exception: an
exception raised by the `finally` clause replaces any pending exception
from the body; otherwise the body's pending exception propagates. -/
def finallyCombine (pending fromFinally : Option PyExc) : Option PyExc :=
  match fromFinally with
  | some e => some e
  | none => pending

/-- Python `except SpecterError` semantics: a raised `SpecterError` is
caught (handled), every other raised exception keeps propagating. -/
def catchSpecterError (raised : Option PyExc) : Option PyExc :=
  match raised with
  | some (PyExc.specterError _) => none
  | other => other

/-- Shallow embedding of the `run` closure defined inside `server`.

Mirrors the source:
- `tor_port` is 443 when `"ssl_context" in kwargs`, else 80;
- `if debug and (tor or os.getenv("CONNECT_TOR") == "True")`: a warning is
  printed and `debug` is set to `False` (the local variable only);
- `if tor or os.getenv("CONNECT_TOR") == "True" or
  app.specter.config["tor_status"] == True`: inside a `try`,
  `app.tor_enabled = True`, `start_hidden_service(app)` is called, and if
  `tor_status` was `False`, `app.specter.toggle_tor_status()` flips it;
  `except Exception` converts a failure into `app.tor_service_id = None`,
  `app.tor_enabled = False`; the `else` branch sets the same two fields;
- `app.run(debug=debug, **kwargs)` then, still inside the `try`,
  `stop_hidden_services(app)`;
- the `finally` clause closes `app.specter.tor_controller` when it is not
  `None`, catching only `SpecterError`. -/
def runServer (env : RunEnv) (debug : Bool) : RunResult :=
  let torPort : Nat := if env.sslContextPresent then 443 else 80
  let warnEvents : List Event :=
    if debug && (env.tor || env.connectTorEnvTrue) then [Event.warnTorDebug] else []
  let debug1 : Bool :=
    if debug && (env.tor || env.connectTorEnvTrue) then false else debug
  let branch : TorBranchOut :=
    if env.tor || env.connectTorEnvTrue || env.torStatus then
      match env.startErr with
      | none =>
        if env.torStatus = false then
          ⟨[Event.startHiddenService, Event.toggleTorStatus], true, some env.serviceId, true⟩
        else
          ⟨[Event.startHiddenService], true, some env.serviceId, env.torStatus⟩
      | some _ => ⟨[Event.startHiddenService], false, none, env.torStatus⟩
    else ⟨[], false, none, env.torStatus⟩
  let serveEvents : List Event :=
    match env.appRunErr with
    | none => [Event.appRun, Event.stopHiddenServices]
    | some _ => [Event.appRun]
  let closeEvents : List Event :=
    if env.torControllerPresent then [Event.torControllerClose] else []
  let closeRaised : Option PyExc :=
    if env.torControllerPresent then env.closeErr else none
  let err : Option PyExc := finallyCombine env.appRunErr (catchSpecterError closeRaised)
  ⟨warnEvents ++ branch.events ++ serveEvents ++ closeEvents,
    torPort, debug1, branch.torEnabled, branch.torServiceId, branch.torStatusAfter, err⟩

/-! Concrete inputs used by counterexamples and witnesses. -/

/-- The initial `kwargs` dict as `server` builds it: default host and
port, no `ssl_context` entry. -/
def kwPlain : Kwargs := ⟨"127.0.0.1", 25441, none⟩

/-- An `app.config` with no explicit cert path but an explicit key path. -/
def cfgC4 : AppConfig := ⟨none, some "mykey.pem", "specterdata"⟩

/-- An `app.config` with both an explicit cert path and an explicit key
path. -/
def cfgC6 : AppConfig := ⟨some "mycert.pem", some "mykey.pem", "specterdata"⟩

/-- An `app.config` with neither cert nor key set. -/
def cfgC9 : AppConfig := ⟨none, none, "specterdata"⟩

/-- An `app.config` naming an existing cert/key pair, and a filesystem
holding both files. -/
def cfgC5 : AppConfig := ⟨some "c.pem", some "k.pem", "specterdata"⟩

/-- A filesystem on which both files of `cfgC5` exist. -/
def fsC5 : FS := [("c.pem", "OLDCERT"), ("k.pem", "OLDKEY")]

/-- A `run` environment with the `--tor` CLI flag set, Tor registration
succeeding, and `app.run` returning normally. -/
def envC1 : RunEnv :=
  ⟨true, false, false, false, none, "svcid", none, false, none⟩

/-- A `run` environment in which `app.run` raises an exception. -/
def envC2 : RunEnv :=
  ⟨false, false, false, false, none, "svcid", some (PyExc.genericError "boom"),
    false, none⟩

/-- A `run` environment in which `start_hidden_service` raises. -/
def envC3 : RunEnv :=
  ⟨true, false, false, false, some (PyExc.genericError "control channel unreachable"),
    "svcid", none, false, none⟩

/-- A `run` environment in which `tor_controller.close()` raises an
exception that is not a `SpecterError`. -/
def envC7 : RunEnv :=
  ⟨false, false, false, false, none, "svcid", none, true,
    some (PyExc.genericError "close failed")⟩

/-! Theorems. -/

/-! Helper lemmas: the three branches of `configure_ssl`, and a lookup
fact about freshly written files. Shared by several claim proofs. -/

/-- Early-return branch of `configure_ssl`: no ssl requested and no
explicit cert. -/
theorem configure_ssl_early (kw : Kwargs) (cfg : AppConfig) (ssl : Bool)
    (fs : FS) (g1 g2 : String) (h : ssl = false ∧ cfg.cert = none) :
    configure_ssl kw cfg ssl fs g1 g2 = ⟨kw, cfg, fs, []⟩ := by
  simp [configure_ssl, h]

/-- Skip branch of `configure_ssl`: some TLS signal, and the resolved cert
file already exists. -/
theorem configure_ssl_skip (kw : Kwargs) (cfg : AppConfig) (ssl : Bool)
    (fs : FS) (g1 g2 : String) (h : ¬ (ssl = false ∧ cfg.cert = none))
    (h2 : (fs.lookup cfg.resolvedCert).isSome = true) :
    configure_ssl kw cfg ssl fs g1 g2 =
      ⟨⟨kw.host, kw.port, some (cfg.resolvedCert, cfg.resolvedKey)⟩,
        ⟨some cfg.resolvedCert, some cfg.resolvedKey, cfg.specterDataFolder⟩,
        fs, []⟩ := by
  simp [configure_ssl, h, h2]

/-- Generation branch of `configure_ssl`: some TLS signal, resolved cert
file absent: both PEM files are written. -/
theorem configure_ssl_gen (kw : Kwargs) (cfg : AppConfig) (ssl : Bool)
    (fs : FS) (g1 g2 : String) (h : ¬ (ssl = false ∧ cfg.cert = none))
    (h2 : ¬ (fs.lookup cfg.resolvedCert).isSome = true) :
    configure_ssl kw cfg ssl fs g1 g2 =
      ⟨⟨kw.host, kw.port, some (cfg.resolvedCert, cfg.resolvedKey)⟩,
        ⟨some cfg.resolvedCert, some cfg.resolvedKey, cfg.specterDataFolder⟩,
        (cfg.resolvedKey, g2) :: (cfg.resolvedCert, g1) :: fs,
        [(cfg.resolvedCert, g1), (cfg.resolvedKey, g2)]⟩ := by
  simp [configure_ssl, h, h2]

/-- Looking up a path right after it was written (possibly shadowed by a
later write) finds a file. -/
theorem lookup_after_write_isSome (fs : FS) (p q a b : String) :
    (List.lookup p ((q, b) :: (p, a) :: fs)).isSome = true := by
  cases hpq : p == q <;> simp [List.lookup, hpq]

/-- C1 counterexample: with `debug = true` and the `--tor` flag set (hidden
service requested), the `run` closure still invokes `start_hidden_service`
— the code disables debug mode, not the Tor path, so the claim that start
is never invoked is false at this input. -/
theorem C1_counterexample :
    Event.startHiddenService ∈ (runServer envC1 true).events := by decide

/-- C1 amended: when `debug` is true and a hidden service is requested via
the `--tor` flag or `CONNECT_TOR`, the `run` closure surfaces the warning,
forcibly disables debug mode (passes `debug = false` to `app.run`), and
still attempts hidden-service registration (`start_hidden_service` is
invoked). -/
theorem C1_debug_mode_disabled_tor_still_started (env : RunEnv) (debug : Bool)
    (hd : debug = true) (ht : env.tor = true ∨ env.connectTorEnvTrue = true) :
    Event.warnTorDebug ∈ (runServer env debug).events ∧
    (runServer env debug).debugUsed = false ∧
    Event.startHiddenService ∈ (runServer env debug).events := by
  subst hd
  rcases env with ⟨tor, ct, ts, ssp, se, sid, ar, tcp, ce⟩
  rcases ht with h | h <;> subst h <;>
    rcases se with _ | e <;> cases ts <;> simp [runServer]

/-- C1 amended, witnessed at the concrete environment `envC1`. -/
theorem C1_debug_mode_disabled_tor_still_started_witness :
    Event.warnTorDebug ∈ (runServer envC1 true).events ∧
    (runServer envC1 true).debugUsed = false ∧
    Event.startHiddenService ∈ (runServer envC1 true).events :=
  C1_debug_mode_disabled_tor_still_started envC1 true rfl (Or.inl rfl)

/-- C2 counterexample: when `app.run` raises, `stop_hidden_services` is
invoked zero times, not once — the call sits inside the `try` block, after
`app.run`, not in the `finally` clause — so the claim that every exit path
from the serve loop invokes stop exactly once is false at this input. -/
theorem C2_counterexample :
    (runServer envC2 false).events.count Event.stopHiddenServices = 0 := by decide

/-- C2 amended: `stop_hidden_services` is invoked exactly once when
`app.run` returns normally, and zero times when `app.run` raises (only the
tor-controller close in the `finally` clause runs on that path). -/
theorem C2_stop_only_on_normal_return (env : RunEnv) (debug : Bool) :
    (runServer env debug).events.count Event.stopHiddenServices
      = if env.appRunErr = none then 1 else 0 := by
  rcases env with ⟨tor, ct, ts, ssp, se, sid, ar, tcp, ce⟩
  rcases ar with _ | ar <;> cases tor <;> cases ct <;> cases ts <;>
    rcases se with _ | se <;> cases tcp <;> cases debug <;>
    simp [runServer]

/-- C10: `start_hidden_service` is invoked iff the `--tor` CLI flag is set,
or the environment variable `CONNECT_TOR` equals `"True"`, or the persisted
`app.specter.config["tor_status"]` is true; and `toggle_tor_status` is
invoked iff that condition holds, `start_hidden_service` succeeds, and
`tor_status` was false. -/
theorem C10_registration_condition (env : RunEnv) (debug : Bool) :
    (Event.startHiddenService ∈ (runServer env debug).events
      ↔ (env.tor = true ∨ env.connectTorEnvTrue = true ∨ env.torStatus = true)) ∧
    (Event.toggleTorStatus ∈ (runServer env debug).events
      ↔ ((env.tor = true ∨ env.connectTorEnvTrue = true ∨ env.torStatus = true)
          ∧ env.startErr = none ∧ env.torStatus = false)) := by
  rcases env with ⟨tor, ct, ts, ssp, se, sid, ar, tcp, ce⟩
  cases tor <;> cases ct <;> cases ts <;> rcases se with _ | se <;>
    rcases ar with _ | ar <;> cases tcp <;> cases debug <;>
    simp [runServer]

/-- C3: every error `start_hidden_service` raises is caught inside the
`run` closure and converted into a disabled registration
(`app.tor_service_id = None`, `app.tor_enabled = False`); the serve loop
(`app.run`) is still reached, and the exception propagating out of `run`
is exactly what it would be had `start_hidden_service` succeeded — the
start error never escapes. -/
theorem C3_start_failure_contained (env : RunEnv) (debug : Bool) (e : PyExc)
    (h : env.startErr = some e) :
    Event.appRun ∈ (runServer env debug).events ∧
    (runServer env debug).torServiceId = none ∧
    (runServer env debug).torEnabled = false ∧
    (runServer env debug).err = (runServer { env with startErr := none } debug).err := by
  rcases env with ⟨tor, ct, ts, ssp, se, sid, ar, tcp, ce⟩
  simp only at h
  subst h
  cases tor <;> cases ct <;> cases ts <;> rcases ar with _ | ar <;>
    cases tcp <;> cases debug <;> simp [runServer]

/-- C3, witnessed at the concrete environment `envC3`. -/
theorem C3_start_failure_contained_witness :
    Event.appRun ∈ (runServer envC3 false).events ∧
    (runServer envC3 false).torServiceId = none ∧
    (runServer envC3 false).torEnabled = false ∧
    (runServer envC3 false).err = (runServer { envC3 with startErr := none } false).err :=
  C3_start_failure_contained envC3 false (PyExc.genericError "control channel unreachable") rfl

/-- C7 counterexample: a non-`SpecterError` raised by
`tor_controller.close()` in the `finally` clause propagates out of `run` —
the `except` clause there names `SpecterError` only — so the claim that
every error during the close is swallowed regardless of its type is false
at this input. -/
theorem C7_counterexample :
    (runServer envC7 false).err = some (PyExc.genericError "close failed") := by decide

/-- C7 amended: the exception propagating out of `run` is fully
characterized: a non-`SpecterError` raised by `tor_controller.close()`
(when the controller is present) propagates, replacing any pending
`app.run` error; a `SpecterError` from the close is caught and logged, in
which case (as when the close succeeds or no controller is held) the
pending `app.run` error, if any, propagates. -/
theorem C7_close_error_policy (env : RunEnv) (debug : Bool) :
    (runServer env debug).err =
      if env.torControllerPresent then
        match env.closeErr with
        | some (PyExc.genericError m) => some (PyExc.genericError m)
        | _ => env.appRunErr
      else env.appRunErr := by
  rcases env with ⟨tor, ct, ts, ssp, se, sid, ar, tcp, ce⟩
  cases tcp <;> rcases ce with _ | (m | m) <;>
    simp [runServer, finallyCombine, catchSpecterError]

/-- C4 counterexample: with `ssl` false, no explicit cert, but an explicit
key path (one of the claim's three signals), `configure_ssl` still returns
the plaintext configuration — the early return tests only `ssl` and
`CERT`, ignoring `KEY` — so the claimed three-signal truth table is false
at this input. -/
theorem C4_counterexample :
    (configure_ssl kwPlain cfgC4 false [] "CERTPEM" "KEYPEM").kwargs.sslContext = none ∧
    cfgC4.key ≠ none := by decide

/-- C4 amended: the resulting `ssl_context` is fully characterized by two
signals only: the configuration stays plaintext (kwargs unchanged) iff
`ssl` is false and no explicit cert path is set; otherwise `ssl_context`
holds the resolved cert/key paths (the explicit ones where given, the
data-folder defaults where not). An explicit key path alone does not
trigger TLS. -/
theorem C4_ssl_context_truth_table (kw : Kwargs) (cfg : AppConfig) (ssl : Bool)
    (fs : FS) (g1 g2 : String) :
    (configure_ssl kw cfg ssl fs g1 g2).kwargs.sslContext =
      if ssl = false ∧ cfg.cert = none then kw.sslContext
      else some (cfg.resolvedCert, cfg.resolvedKey) := by
  by_cases h : ssl = false ∧ cfg.cert = none
  · rw [configure_ssl_early kw cfg ssl fs g1 g2 h, if_pos h]
  · rw [if_neg h]
    by_cases h2 : (fs.lookup cfg.resolvedCert).isSome = true
    · rw [configure_ssl_skip kw cfg ssl fs g1 g2 h h2]
    · rw [configure_ssl_gen kw cfg ssl fs g1 g2 h h2]

/-- C5: when both the resolved cert file and the resolved key file already
exist, `configure_ssl` performs no file write and leaves the filesystem
unchanged. (The code in fact probes only the cert file; both files
existing is sufficient for it to skip provisioning.) -/
theorem C5_existing_pair_untouched (kw : Kwargs) (cfg : AppConfig) (ssl : Bool)
    (fs : FS) (g1 g2 : String)
    (hc : (fs.lookup cfg.resolvedCert).isSome = true)
    (_hk : (fs.lookup cfg.resolvedKey).isSome = true) :
    (configure_ssl kw cfg ssl fs g1 g2).writes = [] ∧
    (configure_ssl kw cfg ssl fs g1 g2).fs = fs := by
  by_cases h : ssl = false ∧ cfg.cert = none
  · rw [configure_ssl_early kw cfg ssl fs g1 g2 h]
    exact ⟨rfl, rfl⟩
  · rw [configure_ssl_skip kw cfg ssl fs g1 g2 h hc]
    exact ⟨rfl, rfl⟩

/-- C5, witnessed on a filesystem already holding the cert/key pair named
by the configuration. -/
theorem C5_existing_pair_untouched_witness :
    (configure_ssl kwPlain cfgC5 true fsC5 "NEWCERT" "NEWKEY").writes = [] ∧
    (configure_ssl kwPlain cfgC5 true fsC5 "NEWCERT" "NEWKEY").fs = fsC5 :=
  C5_existing_pair_untouched kwPlain cfgC5 true fsC5 "NEWCERT" "NEWKEY"
    (by decide) (by decide)

/-- C6 counterexample: with both explicit cert and key paths given but no
file at the cert path, `configure_ssl` executes the provisioning branch
and writes both files at the explicit paths — so the claim that the
provisioning branch is never executed when both paths are given is false
at this input. -/
theorem C6_counterexample :
    (configure_ssl kwPlain cfgC6 false [] "CERTPEM" "KEYPEM").writes =
      [("mycert.pem", "CERTPEM"), ("mykey.pem", "KEYPEM")] := by decide

/-- C6 amended: when both explicit cert and key paths are given they are
used directly in the resulting `ssl_context`, but the provisioning branch
is skipped iff a file already exists at the explicit cert path; when it is
absent, a fresh pair is generated and written at the explicit paths. -/
theorem C6_explicit_paths_direct_provisioning_conditional
    (kw : Kwargs) (cfg : AppConfig) (ssl : Bool) (fs : FS) (g1 g2 : String)
    (c k : String) (hc : cfg.cert = some c) (hk : cfg.key = some k) :
    (configure_ssl kw cfg ssl fs g1 g2).kwargs.sslContext = some (c, k) ∧
    ((configure_ssl kw cfg ssl fs g1 g2).writes = []
      ↔ (fs.lookup c).isSome = true) := by
  have h : ¬ (ssl = false ∧ cfg.cert = none) := by
    rintro ⟨-, h2⟩
    rw [hc] at h2
    exact Option.noConfusion h2
  have hrc : cfg.resolvedCert = c := by
    simp [AppConfig.resolvedCert, hc]
  have hrk : cfg.resolvedKey = k := by
    simp [AppConfig.resolvedKey, hk]
  by_cases h2 : (fs.lookup cfg.resolvedCert).isSome = true
  · rw [configure_ssl_skip kw cfg ssl fs g1 g2 h h2]
    rw [hrc] at h2
    simp [hrc, hrk, h2]
  · rw [configure_ssl_gen kw cfg ssl fs g1 g2 h h2]
    rw [hrc] at h2
    simp [hrc, hrk, h2]

/-- C6 amended, witnessed at explicit paths over an empty filesystem. -/
theorem C6_explicit_paths_direct_provisioning_conditional_witness :
    (configure_ssl kwPlain cfgC6 false [] "CERTPEM" "KEYPEM").kwargs.sslContext
      = some ("mycert.pem", "mykey.pem") ∧
    ((configure_ssl kwPlain cfgC6 false [] "CERTPEM" "KEYPEM").writes = []
      ↔ ((List.nil : FS).lookup "mycert.pem").isSome = true) :=
  C6_explicit_paths_direct_provisioning_conditional kwPlain cfgC6 false []
    "CERTPEM" "KEYPEM" "mycert.pem" "mykey.pem" rfl rfl

/-- C8: `configure_ssl` is idempotent on the filesystem: a second call in
succession — on the kwargs, config and filesystem the first call left —
performs zero file writes and leaves every file byte-identical. -/
theorem C8_second_call_writes_nothing (kw : Kwargs) (cfg : AppConfig) (ssl : Bool)
    (fs : FS) (g1 g2 g3 g4 : String) :
    (configure_ssl (configure_ssl kw cfg ssl fs g1 g2).kwargs
        (configure_ssl kw cfg ssl fs g1 g2).appConfig ssl
        (configure_ssl kw cfg ssl fs g1 g2).fs g3 g4).writes = [] ∧
    (configure_ssl (configure_ssl kw cfg ssl fs g1 g2).kwargs
        (configure_ssl kw cfg ssl fs g1 g2).appConfig ssl
        (configure_ssl kw cfg ssl fs g1 g2).fs g3 g4).fs
      = (configure_ssl kw cfg ssl fs g1 g2).fs := by
  by_cases h : ssl = false ∧ cfg.cert = none
  · rw [configure_ssl_early kw cfg ssl fs g1 g2 h]
    rw [configure_ssl_early kw cfg ssl fs g3 g4 h]
    exact ⟨rfl, rfl⟩
  · by_cases h2 : (fs.lookup cfg.resolvedCert).isSome = true
    · rw [configure_ssl_skip kw cfg ssl fs g1 g2 h h2]
      have h' : ¬ (ssl = false ∧
          (⟨some cfg.resolvedCert, some cfg.resolvedKey,
            cfg.specterDataFolder⟩ : AppConfig).cert = none) := by
        rintro ⟨-, hx⟩
        exact Option.noConfusion hx
      have hr : (⟨some cfg.resolvedCert, some cfg.resolvedKey,
          cfg.specterDataFolder⟩ : AppConfig).resolvedCert = cfg.resolvedCert := rfl
      rw [configure_ssl_skip _ _ ssl fs g3 g4 h' (by rw [hr]; exact h2)]
      exact ⟨rfl, rfl⟩
    · rw [configure_ssl_gen kw cfg ssl fs g1 g2 h h2]
      have h' : ¬ (ssl = false ∧
          (⟨some cfg.resolvedCert, some cfg.resolvedKey,
            cfg.specterDataFolder⟩ : AppConfig).cert = none) := by
        rintro ⟨-, hx⟩
        exact Option.noConfusion hx
      have h2' : ((((cfg.resolvedKey, g2) :: (cfg.resolvedCert, g1) :: fs) : FS).lookup
          (⟨some cfg.resolvedCert, some cfg.resolvedKey,
            cfg.specterDataFolder⟩ : AppConfig).resolvedCert).isSome = true := by
        exact lookup_after_write_isSome fs cfg.resolvedCert cfg.resolvedKey g1 g2
      rw [configure_ssl_skip _ _ ssl _ g3 g4 h' h2']
      exact ⟨rfl, rfl⟩

/-- C9 counterexample: `configure_ssl` mutates its `app_config` input —
with `ssl` requested and `CERT`/`KEY` unset, the call fills both fields in
place with the derived default paths — so the claim that `app_config` (in
particular its CERT and KEY fields) is unchanged is false at this input. -/
theorem C9_counterexample :
    (configure_ssl kwPlain cfgC9 true [] "CERTPEM" "KEYPEM").appConfig ≠ cfgC9 := by
  decide

/-- C9 amended: `app_config` after `configure_ssl` is fully characterized:
it is unchanged on the early plaintext return, and otherwise its CERT and
KEY fields are set in place to the resolved paths (unchanged where already
set, defaulted under the data folder where `None`); the data-folder field
never changes, and the call remains a deterministic function of its
inputs. -/
theorem C9_app_config_mutation (kw : Kwargs) (cfg : AppConfig) (ssl : Bool)
    (fs : FS) (g1 g2 : String) :
    (configure_ssl kw cfg ssl fs g1 g2).appConfig =
      if ssl = false ∧ cfg.cert = none then cfg
      else ⟨some cfg.resolvedCert, some cfg.resolvedKey, cfg.specterDataFolder⟩ := by
  by_cases h : ssl = false ∧ cfg.cert = none
  · rw [configure_ssl_early kw cfg ssl fs g1 g2 h, if_pos h]
  · rw [if_neg h]
    by_cases h2 : (fs.lookup cfg.resolvedCert).isSome = true
    · rw [configure_ssl_skip kw cfg ssl fs g1 g2 h h2]
    · rw [configure_ssl_gen kw cfg ssl fs g1 g2 h h2]

end CliServer
